import Mathlib

/-!
Verification of the openclaw-botshub / hxa-connect channel plugin.

The development shallowly embeds the core logic of the plugin:
* channel-id validation (`validChannelId`, the regex `^[a-zA-Z0-9_-]{1,64}$`),
* the outbound transport `hubFetch` with its 429 retry loop (webhook-only
  variant) and the non-retrying `hubFetch` of the SDK variant,
* `fetchChannelInfo` and `sendToChannel` with their action traces,
* the inbound webhook handler `handleInboundWebhook` (auth check, dual-schema
  extraction, validation, dispatch),
* the reply relay `deliver` callback, and
* the `startAccount` mode selection of the SDK variant.

External effects (the HTTP responses of the hub, the SDK connection) are passed in
as explicit oracles, so every definition is executable.
-/

namespace Botshub

instance {ε α : Type} [DecidableEq ε] [DecidableEq α] : DecidableEq (Except ε α) :=
  fun x y =>
    match x, y with
    | .ok a, .ok b =>
      if h : a = b then .isTrue (by rw [h]) else .isFalse (by simp [h])
    | .error a, .error b =>
      if h : a = b then .isTrue (by rw [h]) else .isFalse (by simp [h])
    | .ok _, .error _ => .isFalse (by simp)
    | .error _, .ok _ => .isFalse (by simp)

/-- Model of JavaScript `s.slice(0, n)` (kernel-reducible). -/
def jsSlice (s : String) (n : Nat) : String := String.mk (s.data.take n)

/-- Model of JavaScript `s.startsWith(p)`. -/
def jsStartsWith (s p : String) : Bool := s.data.take p.data.length == p.data

/-- Model of JavaScript `s.slice(n)` (drop the first `n` characters). -/
def jsDropChars (s : String) (n : Nat) : String := String.mk (s.data.drop n)

/-- Model of JavaScript `s.trim()`. -/
def jsTrim (s : String) : String :=
  String.mk (((s.data.dropWhile Char.isWhitespace).reverse.dropWhile
    Char.isWhitespace).reverse)

/-- Emptiness of a string (JS falsiness of a string value). -/
def strEmpty (s : String) : Bool := s.data.isEmpty

/-- The channel-id pattern `^[a-zA-Z0-9_-]{1,64}$` (CHANNEL_ID_RE). -/
def validChannelId (s : String) : Bool :=
  decide (1 ≤ s.data.length) && decide (s.data.length ≤ 64) &&
    s.data.all (fun c => c.isAlphanum || c == '_' || c == '-')

/-- JavaScript truthiness of an optional string field
(`undefined` and `""` are falsy). -/
def jsTruthy (o : Option String) : Bool := !strEmpty (o.getD "")

/-- JavaScript `parseInt(s, 10)`: skip leading whitespace, optional sign,
longest digit prefix; `none` models `NaN`. -/
def jsParseInt10 (s : String) : Option Int :=
  let t := s.data.dropWhile Char.isWhitespace
  let (sign, rest) : Int × List Char :=
    match t with
    | '-' :: r => (-1, r)
    | '+' :: r => (1, r)
    | r => (1, r)
  let digits := rest.takeWhile Char.isDigit
  if digits.isEmpty then none
  else some (sign * (digits.foldl (fun n c => n * 10 + (c.toNat - '0'.toNat)) 0 : Nat))

-- ── Outbound transport: hubFetch ──────────────────────────────

/-- One HTTP response from the hub, as observed by `hubFetch`.
`bodyText = none` models a response body whose read throws
(degraded to `""` by the `.catch`). -/
structure HttpResp where
  ok : Bool
  status : Nat
  retryAfter : Option String
  bodyText : Option String
deriving Repr, DecidableEq

inductive FetchOutcome
  | success (attempt : Nat)
  | failure (status : Nat) (body : String)
  | exhausted
deriving Repr, DecidableEq

/-- Trace of one `hubFetch` call: final outcome, the delays (ms) slept
between attempts, and the number of `fetch` calls issued. -/
structure FetchTrace where
  outcome : FetchOutcome
  delays : List Nat
  attempts : Nat
deriving Repr, DecidableEq

/-- `MAX_SEND_RETRIES`. -/
def MAX_SEND_RETRIES : Nat := 2

/-- `RETRY_BASE_MS`. -/
def RETRY_BASE_MS : Nat := 1000

/-- The delay computed for a 429 at 0-based `attempt`:
`retryAfter > 0 ? retryAfter * 1000 : RETRY_BASE_MS * (attempt + 1)`
where `retryAfter = parseInt(header.get("Retry-After") || "", 10)`. -/
def retryDelayMs (attempt : Nat) (retryAfterHeader : Option String) : Nat :=
  match jsParseInt10 (retryAfterHeader.getD "") with
  | some ra => if ra > 0 then ra.toNat * 1000 else RETRY_BASE_MS * (attempt + 1)
  | none => RETRY_BASE_MS * (attempt + 1)

/-- The retry loop of `hubFetch` in the webhook-only variant
(`for attempt = 0; attempt <= MAX_SEND_RETRIES; attempt++`), with the
response of the k-th `fetch` supplied by the oracle `rs k`.
Structurally recursive on remaining fuel; `exhausted` models the
trailing unreachable `throw`. -/
def hubFetchAux (rs : Nat → HttpResp) : Nat → Nat → FetchTrace
  | 0, _ => ⟨.exhausted, [], 0⟩
  | fuel + 1, attempt =>
    let resp := rs attempt
    if resp.ok then ⟨.success attempt, [], 1⟩
    else if resp.status = 429 ∧ attempt < MAX_SEND_RETRIES then
      let d := retryDelayMs attempt resp.retryAfter
      let rest := hubFetchAux rs fuel (attempt + 1)
      ⟨rest.outcome, d :: rest.delays, rest.attempts + 1⟩
    else ⟨.failure resp.status (resp.bodyText.getD ""), [], 1⟩

/-- `hubFetch` of the webhook-only variants (`src/index.ts` and the second
file of `part_000`): up to `MAX_SEND_RETRIES + 1` attempts. -/
def hubFetch (rs : Nat → HttpResp) : FetchTrace :=
  hubFetchAux rs (MAX_SEND_RETRIES + 1) 0

/-- `hubFetch` of the SDK variant (first file of `part_000`, its
"HTTP fallback"): a single `fetch`, any non-ok response throws at once. -/
def hubFetchNR (rs : Nat → HttpResp) : FetchTrace :=
  let resp := rs 0
  if resp.ok then ⟨.success 0, [], 1⟩
  else ⟨.failure resp.status (resp.bodyText.getD ""), [], 1⟩

-- ── fetchChannelInfo / sendToChannel ──────────────────────────

/-- The record built from the channel-metadata JSON:
`{ type: data.type, name: data.name }` (either field may be absent). -/
structure ChannelInfo where
  type : Option String
  name : Option String
deriving Repr, DecidableEq

/-- Network / SDK operations issued by the transport. -/
inductive HubAction
  | getChannel (cid : String)
  | postChannelMessage (cid : String)
  | postSend (toName : String)
  | sdkSendMessage (cid : String)
deriving Repr, DecidableEq

/-- The message of the error raised by `assertSafeChannelId`. -/
def invalidChannelIdMsg (cid : String) : String :=
  "Invalid channel_id: " ++ jsSlice cid 40

structure FetchInfoTrace where
  result : Except String (Option ChannelInfo)
  actions : List HubAction
deriving Repr, DecidableEq

/-- `fetchChannelInfo` (webhook-only variants): `assertSafeChannelId` runs
before the `try` block, so an invalid id throws without any network call;
for a valid id the GET is issued and any failure inside the `try`
(HTTP error, body parse) is absorbed to `null`. The oracle `lookup`
supplies the outcome of the `try` block. -/
def fetchChannelInfo (lookup : String → Option ChannelInfo) (cid : String) :
    FetchInfoTrace :=
  if validChannelId cid then ⟨.ok (lookup cid), [.getChannel cid]⟩
  else ⟨.error (invalidChannelIdMsg cid), []⟩

structure SendTrace where
  result : Except String Unit
  actions : List HubAction
deriving Repr, DecidableEq

/-- `sendToChannel` of the webhook-only variants: config check, then
`assertSafeChannelId`, then the POST (whose outcome is the oracle
`sendResult`). -/
def sendToChannelHttp (configured : Bool) (sendResult : Except String Unit)
    (cid : String) : SendTrace :=
  if !configured then
    ⟨.error "BotsHub not configured (missing hubUrl or agentToken)", []⟩
  else if validChannelId cid then ⟨sendResult, [.postChannelMessage cid]⟩
  else ⟨.error (invalidChannelIdMsg cid), []⟩

/-- `sendToChannel` of the SDK variant (first file of `part_000`): when a
live SDK connection exists it calls `sdkClient.sendMessage(channelId, text)`
directly; `assertSafeChannelId` runs only on the HTTP fallback path. -/
def sendToChannelSdk (sdkConnected : Bool) (sendResult : Except String Unit)
    (cid : String) : SendTrace :=
  if sdkConnected then ⟨sendResult, [.sdkSendMessage cid]⟩
  else if validChannelId cid then ⟨sendResult, [.postChannelMessage cid]⟩
  else ⟨.error (invalidChannelIdMsg cid), []⟩

-- ── Inbound webhook handler ───────────────────────────────────

/-- The nested `message` object of a v1 envelope. -/
structure WireMessage where
  sender_id : Option String
  content : Option String
  id : Option String
deriving Repr, DecidableEq

/-- The parsed webhook body (all fields optional, as in the dynamic JS
object). -/
structure Body where
  webhook_version : Option String
  channel_id : Option String
  sender_name : Option String
  sender_id : Option String
  content : Option String
  message_id : Option String
  chat_type : Option String
  group_name : Option String
  message : Option WireMessage
deriving Repr, DecidableEq

/-- The part of the channel config the handler consults. -/
structure HubConfig where
  webhookSecret : Option String
deriving Repr, DecidableEq

structure Request where
  authHeader : Option String
  body : Body
deriving Repr, DecidableEq

/-- Result of the handler towards the HTTP caller: a written response, or an
exception propagating out of the (async) handler. -/
inductive HttpResult
  | resp (status : Nat) (body : String)
  | thrown (msg : String)
deriving Repr, DecidableEq

def unauthorizedBody : String := "\x7b\x22error\x22:\x22Unauthorized\x22\x7d"
def missingBody : String := "\x7b\x22error\x22:\x22Missing content or sender_name\x22\x7d"
def okBody : String := "\x7b\x22ok\x22:true\x7d"

/-- The canonical normalized message built by the handler once validation
passes, including the reply-target decision. -/
structure Normalized where
  channel_id : Option String
  sender_name : String
  sender_id : Option String
  content : String
  message_id : Option String
  chat_type : Option String
  group_name : Option String
  isGroup : Bool
  replyChannelId : Option String
  replySenderName : String
deriving Repr, DecidableEq

structure HandlerTrace where
  result : HttpResult
  lookups : List String
  dispatched : Option Normalized
deriving Repr, DecidableEq

/-- Token extraction: `authHeader.startsWith("Bearer ") ? slice(7) : ""`
with `req.headers?.authorization ?? ""`. -/
def bearerToken (authHeader : Option String) : String :=
  let h := authHeader.getD ""
  if jsStartsWith h "Bearer " then jsDropChars h 7 else ""

/-- The auth rejection condition: a secret is configured (truthy) and the
presented token is not exactly equal to it. -/
def authFail (bh : HubConfig) (req : Request) : Bool :=
  jsTruthy bh.webhookSecret &&
    !(bearerToken req.authHeader == bh.webhookSecret.getD "")

/-- The seven locals the handler extracts from the body. -/
structure Extracted where
  channel_id : Option String
  sender_name : Option String
  sender_id : Option String
  content : Option String
  message_id : Option String
  chat_type : Option String
  group_name : Option String
deriving Repr, DecidableEq

/-- Dual-schema extraction. For `webhook_version` strictly equal to "1" the fields come
from the envelope and, when `channel_id` is truthy, `fetchChannelInfo` is
invoked (recorded in the returned list); its `null` result defaults
`chat_type` to `"group"`, and its exception (invalid id) propagates.
Otherwise the legacy flat fields are copied one-to-one. -/
def extractFields (lookup : String → Option ChannelInfo) (body : Body) :
    Except String Extracted × List String :=
  if body.webhook_version == some "1" then
    let msg := body.message
    let base : Extracted :=
      { channel_id := body.channel_id
        sender_name := body.sender_name
        sender_id := msg.bind (fun m => m.sender_id)
        content := msg.bind (fun m => m.content)
        message_id := msg.bind (fun m => m.id)
        chat_type := none
        group_name := none }
    if jsTruthy body.channel_id then
      let cid := body.channel_id.getD ""
      match (fetchChannelInfo lookup cid).result with
      | .error e => (.error e, [cid])
      | .ok (some ci) =>
        (.ok { base with chat_type := ci.type, group_name := ci.name }, [cid])
      | .ok none =>
        (.ok { base with chat_type := some "group", group_name := none }, [cid])
    else (.ok base, [])
  else
    (.ok { channel_id := body.channel_id
           sender_name := body.sender_name
           sender_id := body.sender_id
           content := body.content
           message_id := body.message_id
           chat_type := body.chat_type
           group_name := body.group_name }, [])

/-- Validation and construction of the canonical message:
`if (!content || !sender_name) → 400`; otherwise `isGroup = (chat_type ===
"group")`, the reply target is the channel id for groups and the sender
name otherwise, and the handler will answer 200. -/
def finalize (e : Extracted) : HttpResult × Option Normalized :=
  if !(jsTruthy e.content) || !(jsTruthy e.sender_name) then
    (.resp 400 missingBody, none)
  else
    let isGroup := e.chat_type == some "group"
    (.resp 200 okBody, some
      { channel_id := e.channel_id
        sender_name := e.sender_name.getD ""
        sender_id := e.sender_id
        content := e.content.getD ""
        message_id := e.message_id
        chat_type := e.chat_type
        group_name := e.group_name
        isGroup := isGroup
        replyChannelId := if isGroup then e.channel_id else none
        replySenderName := e.sender_name.getD "" })

/-- `handleInboundWebhook` of `src/index.ts`: secret check first, then
extraction (with its possible lookup and possible exception), then
validation and dispatch. -/
def handleInboundWebhook (bh : HubConfig) (lookup : String → Option ChannelInfo)
    (req : Request) : HandlerTrace :=
  if authFail bh req then ⟨.resp 401 unauthorizedBody, [], none⟩
  else
    match extractFields lookup req.body with
    | (.error e, ls) => ⟨.thrown e, ls, none⟩
    | (.ok ex, ls) =>
      let fin := finalize ex
      ⟨fin.1, ls, fin.2⟩

/-- The content field the handler validates, per shape. -/
def extractedContent (b : Body) : Option String :=
  if b.webhook_version == some "1" then b.message.bind (fun m => m.content)
  else b.content

-- ── Reply relay (deliver callback) ────────────────────────────

/-- The reply payload from the host: a string, or an object probed for `text` /
`body` with `String(payload)` as last resort. -/
inductive ReplyPayload
  | str (s : String)
  | obj (text : Option String) (body : Option String) (stringOf : String)
deriving Repr, DecidableEq

/-- `typeof payload === "string" ? payload : payload?.text ?? payload?.body
?? String(payload)`. -/
def coerceText : ReplyPayload → String
  | .str s => s
  | .obj t b c => (t.or b).getD c

inductive SendOutcome
  | noSend
  | sentChannel (cid : String) (text : String)
  | sentDirect (toName : String) (text : String)
deriving Repr, DecidableEq

/-- Trace of one `deliver` invocation: the send it attempted, the error it
logged (if the send failed), and the error it let escape to the dispatch
loop of the host. -/
structure DeliverTrace where
  send : SendOutcome
  logged : Option String
  raised : Option String
deriving Repr, DecidableEq

/-- The `deliver` callback: trim-empty replies are dropped; otherwise the
reply goes to the channel when `replyChannelId` is truthy, else directly to
the sender; the awaited send sits in a `try`/`catch` that logs and
swallows any failure (`sendFailure` is the oracle for that failure). -/
def deliver (replyChannelId : Option String) (replySenderName : String)
    (sendFailure : Option String) (payload : ReplyPayload) : DeliverTrace :=
  let text := coerceText payload
  if strEmpty (jsTrim text) then ⟨.noSend, none, none⟩
  else if jsTruthy replyChannelId then
    ⟨.sentChannel (replyChannelId.getD "") text, sendFailure, none⟩
  else ⟨.sentDirect replySenderName text, sendFailure, none⟩

-- ── SDK variant: startAccount mode selection ──────────────────

inductive Mode
  | sdk
  | webhook
  | auto
deriving Repr, DecidableEq

/-- Outcome of `startAccount`: whether a persistent connect was attempted,
whether the singleton client ended up set, and whether startup succeeded
or threw. -/
structure StartTrace where
  connectAttempted : Bool
  sdkConnected : Bool
  result : Except String Unit
deriving Repr, DecidableEq

/-- `startAccount` of the SDK variant: `mode = bh.mode || "sdk"`; for
`sdk`/`auto` the connect is attempted (`connect` is the oracle for
`initSdkClient`); a failure throws for `sdk` but is logged and survived
for `auto`; `webhook` never connects. -/
def startAccount (mode : Option Mode) (connect : Except String Unit) :
    StartTrace :=
  match mode.getD .sdk with
  | .webhook => ⟨false, false, .ok ()⟩
  | .sdk =>
    match connect with
    | .ok _ => ⟨true, true, .ok ()⟩
    | .error e => ⟨true, false, .error e⟩
  | .auto =>
    match connect with
    | .ok _ => ⟨true, true, .ok ()⟩
    | .error _ => ⟨true, false, .ok ()⟩

-- ── Concrete fixtures used by counterexamples and witnesses ───

/-- A lookup oracle on which every channel-metadata request fails. -/
def noInfo : String → Option ChannelInfo := fun _ => none

/-- A response oracle that always answers 429 with `Retry-After: 5`. -/
def rs429 : Nat → HttpResp := fun _ => ⟨false, 429, some "5", some "slow down"⟩

/-- A response oracle that always answers 500. -/
def rs500 : Nat → HttpResp := fun _ => ⟨false, 500, none, some "boom"⟩

/-- A v1 envelope carrying an unsafe channel id and a complete message. -/
def v1UnsafeBody : Body :=
  { webhook_version := some "1", channel_id := some "../etc",
    sender_name := some "bob", sender_id := none, content := none,
    message_id := none, chat_type := none, group_name := none,
    message := some ⟨some "s9", some "hi", some "m1"⟩ }

/-- A v1 envelope with an unsafe channel id and no message at all. -/
def v1UnsafeNoContent : Body :=
  { webhook_version := some "1", channel_id := some "../etc",
    sender_name := some "bob", sender_id := none, content := none,
    message_id := none, chat_type := none, group_name := none,
    message := none }

/-- A well-formed v1 envelope with the safe channel id `c1`. -/
def v1GoodBody : Body :=
  { webhook_version := some "1", channel_id := some "c1",
    sender_name := some "bob", sender_id := none, content := none,
    message_id := none, chat_type := none, group_name := none,
    message := some ⟨some "s9", some "hi", some "m1"⟩ }

/-- A v1 envelope with no channel id. -/
def v1NoCidBody : Body :=
  { webhook_version := some "1", channel_id := none,
    sender_name := some "bob", sender_id := none, content := none,
    message_id := none, chat_type := none, group_name := none,
    message := some ⟨some "s9", some "hi", some "m1"⟩ }

/-- A legacy flat payload marked as a group message but with no channel id. -/
def legacyGroupNoChannel : Body :=
  { webhook_version := none, channel_id := none,
    sender_name := some "bob", sender_id := none, content := some "hi",
    message_id := none, chat_type := some "group", group_name := none,
    message := none }

/-- A complete legacy flat payload. -/
def legacyGoodBody : Body :=
  { webhook_version := none, channel_id := some "c1",
    sender_name := some "bob", sender_id := some "s9", content := some "hi",
    message_id := some "m1", chat_type := some "group",
    group_name := some "devs", message := none }

/-- A legacy payload with no sender name. -/
def legacyNoSender : Body :=
  { webhook_version := none, channel_id := some "c1",
    sender_name := none, sender_id := none, content := some "hi",
    message_id := none, chat_type := none, group_name := none,
    message := none }

-- ── Helper lemmas ─────────────────────────────────────────────

theorem hubFetchAux_step (rs : Nat → HttpResp) (fuel attempt : Nat) :
    hubFetchAux rs (fuel + 1) attempt =
      (let resp := rs attempt
       if resp.ok then ⟨.success attempt, [], 1⟩
       else if resp.status = 429 ∧ attempt < MAX_SEND_RETRIES then
         let d := retryDelayMs attempt resp.retryAfter
         let rest := hubFetchAux rs fuel (attempt + 1)
         ⟨rest.outcome, d :: rest.delays, rest.attempts + 1⟩
       else ⟨.failure resp.status (resp.bodyText.getD ""), [], 1⟩) := rfl

theorem extractFields_legacy (lookup : String → Option ChannelInfo) (b : Body)
    (h : (b.webhook_version == some "1") = false) :
    extractFields lookup b =
      (.ok ⟨b.channel_id, b.sender_name, b.sender_id, b.content,
            b.message_id, b.chat_type, b.group_name⟩, []) := by
  unfold extractFields
  simp [h]

theorem extractFields_v1_noCid (lookup : String → Option ChannelInfo) (b : Body)
    (h1 : b.webhook_version = some "1")
    (h2 : jsTruthy b.channel_id = false) :
    extractFields lookup b =
      (.ok ⟨b.channel_id, b.sender_name,
            b.message.bind (fun m => m.sender_id),
            b.message.bind (fun m => m.content),
            b.message.bind (fun m => m.id), none, none⟩, []) := by
  unfold extractFields
  simp [h1, h2]

theorem extractFields_v1_null (lookup : String → Option ChannelInfo) (b : Body)
    (cid : String)
    (h1 : b.webhook_version = some "1")
    (h2 : b.channel_id = some cid)
    (h3 : jsTruthy (some cid) = true)
    (h4 : validChannelId cid = true)
    (h5 : lookup cid = none) :
    extractFields lookup b =
      (.ok ⟨some cid, b.sender_name,
            b.message.bind (fun m => m.sender_id),
            b.message.bind (fun m => m.content),
            b.message.bind (fun m => m.id), some "group", none⟩, [cid]) := by
  unfold extractFields fetchChannelInfo
  simp [h1, h2, h3, h4, h5]

theorem extractFields_v1_info (lookup : String → Option ChannelInfo) (b : Body)
    (cid : String) (ci : ChannelInfo)
    (h1 : b.webhook_version = some "1")
    (h2 : b.channel_id = some cid)
    (h3 : jsTruthy (some cid) = true)
    (h4 : validChannelId cid = true)
    (h5 : lookup cid = some ci) :
    extractFields lookup b =
      (.ok ⟨some cid, b.sender_name,
            b.message.bind (fun m => m.sender_id),
            b.message.bind (fun m => m.content),
            b.message.bind (fun m => m.id), ci.type, ci.name⟩, [cid]) := by
  unfold extractFields fetchChannelInfo
  simp [h1, h2, h3, h4, h5]

theorem extractFields_v1_invalid (lookup : String → Option ChannelInfo) (b : Body)
    (cid : String)
    (h1 : b.webhook_version = some "1")
    (h2 : b.channel_id = some cid)
    (h3 : jsTruthy (some cid) = true)
    (h4 : validChannelId cid = false) :
    extractFields lookup b = (.error (invalidChannelIdMsg cid), [cid]) := by
  unfold extractFields fetchChannelInfo
  simp [h1, h2, h3, h4]

theorem finalize_ok (e : Extracted) (hc : jsTruthy e.content = true)
    (hs : jsTruthy e.sender_name = true) :
    finalize e =
      (.resp 200 okBody, some
        ⟨e.channel_id, e.sender_name.getD "", e.sender_id, e.content.getD "",
         e.message_id, e.chat_type, e.group_name, e.chat_type == some "group",
         if e.chat_type == some "group" then e.channel_id else none,
         e.sender_name.getD ""⟩) := by
  unfold finalize
  simp [hc, hs]

theorem finalize_missing (e : Extracted)
    (h : (!jsTruthy e.content || !jsTruthy e.sender_name) = true) :
    finalize e = (.resp 400 missingBody, none) := by
  unfold finalize
  simp only [h, if_pos]

theorem handle_noAuthFail (bh : HubConfig) (lookup : String → Option ChannelInfo)
    (req : Request) (h : authFail bh req = false) :
    handleInboundWebhook bh lookup req =
      (match extractFields lookup req.body with
       | (.error e, ls) => ⟨.thrown e, ls, none⟩
       | (.ok ex, ls) => ⟨(finalize ex).1, ls, (finalize ex).2⟩) := by
  unfold handleInboundWebhook
  simp only [h, Bool.false_eq_true, if_false]

theorem dispatched_reply_target (bh : HubConfig)
    (lookup : String → Option ChannelInfo) (req : Request) (m : Normalized)
    (h : (handleInboundWebhook bh lookup req).dispatched = some m) :
    m.replyChannelId = (if m.isGroup then m.channel_id else none) ∧
    m.replySenderName = m.sender_name := by
  unfold handleInboundWebhook at h
  by_cases ha : authFail bh req = true
  · rw [if_pos ha] at h
    simp at h
  · rw [if_neg ha] at h
    rcases hE : extractFields lookup req.body with ⟨res, ls⟩
    rw [hE] at h
    cases res with
    | error e => simp at h
    | ok ex =>
      simp only at h
      unfold finalize at h
      split at h
      · simp at h
      · simp only [Option.some.injEq] at h
        subst h
        exact ⟨rfl, rfl⟩

-- ── Claim theorems ────────────────────────────────────────────

/-- C3 counterexample: the claim demands rejection of invalid channel ids
before any network call or send in every transport path, including the
SDK-connection path. In the SDK variant with a live connection,
`sendToChannel` forwards the invalid id `../etc` to the SDK send primitive
without any validation. -/
theorem C3_counterexample :
    validChannelId "../etc" = false ∧
    sendToChannelSdk true (.ok ()) "../etc" =
      ⟨.ok (), [.sdkSendMessage "../etc"]⟩ := by
  decide

/-- C3 (corrected): for every channel id failing `^[A-Za-z0-9_-]{1,64}$`,
`sendToChannel` and `fetchChannelInfo` reject with an invalid-input error
before issuing any network call on every HTTP path (both variants,
including the HTTP fallback of the SDK variant); but when a live SDK
connection exists, the SDK variant `sendToChannel` forwards the channel id
to the SDK send without validating it. -/
theorem C3_amended_theorem :
    (∀ (sendResult : Except String Unit) (cid : String),
      validChannelId cid = false →
      sendToChannelHttp true sendResult cid =
        ⟨.error (invalidChannelIdMsg cid), []⟩) ∧
    (∀ (lookup : String → Option ChannelInfo) (cid : String),
      validChannelId cid = false →
      fetchChannelInfo lookup cid = ⟨.error (invalidChannelIdMsg cid), []⟩) ∧
    (∀ (sendResult : Except String Unit) (cid : String),
      validChannelId cid = false →
      sendToChannelSdk false sendResult cid =
        ⟨.error (invalidChannelIdMsg cid), []⟩) ∧
    (∀ (sendResult : Except String Unit) (cid : String),
      sendToChannelSdk true sendResult cid =
        ⟨sendResult, [.sdkSendMessage cid]⟩) := by
  refine ⟨fun sr cid h => ?_, fun lk cid h => ?_, fun sr cid h => ?_,
    fun sr cid => ?_⟩
  · unfold sendToChannelHttp
    simp [h]
  · unfold fetchChannelInfo
    simp [h]
  · unfold sendToChannelSdk
    simp [h]
  · unfold sendToChannelSdk
    simp

theorem C3_amended_theorem_witness :
    sendToChannelHttp true (.ok ()) "../etc" =
      ⟨.error (invalidChannelIdMsg "../etc"), []⟩ ∧
    fetchChannelInfo noInfo "../x" = ⟨.error (invalidChannelIdMsg "../x"), []⟩ ∧
    sendToChannelSdk false (.ok ()) "bad id" =
      ⟨.error (invalidChannelIdMsg "bad id"), []⟩ ∧
    sendToChannelSdk true (.ok ()) "c1" = ⟨.ok (), [.sdkSendMessage "c1"]⟩ :=
  ⟨C3_amended_theorem.1 _ _ (by decide), C3_amended_theorem.2.1 _ _ (by decide),
   C3_amended_theorem.2.2.1 _ _ (by decide), C3_amended_theorem.2.2.2 _ _⟩

/-- C4 counterexample: `fetchChannelInfo` is claimed never to throw, but on
the invalid channel id `../etc` it raises the invalid-input error (the
`assertSafeChannelId` call sits before the `try` block). -/
theorem C4_counterexample :
    (fetchChannelInfo noInfo "../etc").result =
      .error (invalidChannelIdMsg "../etc") := by
  decide

/-- C4 (corrected): for every channel id matching the safe pattern,
`fetchChannelInfo` returns a `{type, name}` record on success or `null` on
any lookup failure and never throws; only an id failing the pattern makes
it throw, before any network call. -/
theorem C4_amended_theorem (lookup : String → Option ChannelInfo) (cid : String)
    (h : validChannelId cid = true) :
    fetchChannelInfo lookup cid = ⟨.ok (lookup cid), [.getChannel cid]⟩ := by
  unfold fetchChannelInfo
  simp [h]

theorem C4_amended_theorem_witness :
    validChannelId "c1" = true ∧
    fetchChannelInfo noInfo "c1" = ⟨.ok none, [.getChannel "c1"]⟩ :=
  ⟨by decide, C4_amended_theorem noInfo "c1" (by decide)⟩

/-- C5 (confirmed): in the SDK variant `startAccount`, mode `webhook` never
attempts the persistent connection; mode `sdk` (or unset, the default)
propagates a connect failure as a start error; mode `auto` survives a
connect failure and completes successfully with no live SDK client,
leaving the plugin serving webhooks. -/
theorem C5_theorem :
    (∀ connect : Except String Unit,
      startAccount (some .webhook) connect = ⟨false, false, .ok ()⟩) ∧
    (∀ e : String, startAccount (some .sdk) (.error e) = ⟨true, false, .error e⟩) ∧
    (∀ e : String, startAccount none (.error e) = ⟨true, false, .error e⟩) ∧
    (∀ e : String, startAccount (some .auto) (.error e) = ⟨true, false, .ok ()⟩) :=
  ⟨fun _ => rfl, fun _ => rfl, fun _ => rfl, fun _ => rfl⟩

/-- C6 counterexample: a legacy payload can mark a message as a group
message while carrying no channel id; the inbound message is then a
group/channel message, yet its reply goes through the direct send to the
sender instead of `sendToChannel`. -/
theorem C6_counterexample :
    ((handleInboundWebhook ⟨none⟩ noInfo ⟨none, legacyGroupNoChannel⟩).dispatched.map
      (fun m => m.isGroup)) = some true ∧
    ((handleInboundWebhook ⟨none⟩ noInfo ⟨none, legacyGroupNoChannel⟩).dispatched.map
      (fun m => (deliver m.replyChannelId m.replySenderName none (.str "hello")).send))
      = some (.sentDirect "bob" "hello") := by
  decide

/-- C6 (corrected): the deliver callback drops replies that are empty after
trimming without any send; otherwise it sends to the channel when the
inbound message was a group message that carried a truthy channel id, and
directly to the original sender in every other case (including a group
message without channel id); a send failure is logged inside deliver and
never raised into the dispatch loop of the host. -/
theorem C6_amended_theorem :
    (∀ (rc : Option String) (sn : String) (sf : Option String)
      (p : ReplyPayload), strEmpty (jsTrim (coerceText p)) = true →
      deliver rc sn sf p = ⟨.noSend, none, none⟩) ∧
    (∀ (rc : Option String) (sn : String) (sf : Option String)
      (p : ReplyPayload), strEmpty (jsTrim (coerceText p)) = false →
      jsTruthy rc = true →
      deliver rc sn sf p = ⟨.sentChannel (rc.getD "") (coerceText p), sf, none⟩) ∧
    (∀ (rc : Option String) (sn : String) (sf : Option String)
      (p : ReplyPayload), strEmpty (jsTrim (coerceText p)) = false →
      jsTruthy rc = false →
      deliver rc sn sf p = ⟨.sentDirect sn (coerceText p), sf, none⟩) ∧
    (∀ (rc : Option String) (sn : String) (sf : Option String)
      (p : ReplyPayload), (deliver rc sn sf p).raised = none) ∧
    (∀ (bh : HubConfig) (lookup : String → Option ChannelInfo) (req : Request)
      (m : Normalized), (handleInboundWebhook bh lookup req).dispatched = some m →
      m.replyChannelId = (if m.isGroup then m.channel_id else none) ∧
      m.replySenderName = m.sender_name) := by
  refine ⟨fun rc sn sf p h => ?_, fun rc sn sf p h1 h2 => ?_,
    fun rc sn sf p h1 h2 => ?_, fun rc sn sf p => ?_,
    fun bh lookup req m h => dispatched_reply_target bh lookup req m h⟩
  · unfold deliver
    simp [h]
  · unfold deliver
    simp [h1, h2]
  · unfold deliver
    simp [h1, h2]
  · unfold deliver
    by_cases h1 : strEmpty (jsTrim (coerceText p)) = true <;>
      by_cases h2 : jsTruthy rc = true <;>
        simp [h1, h2]

theorem C6_amended_theorem_witness :
    deliver (some "c1") "bob" none (.str "   ") = ⟨.noSend, none, none⟩ ∧
    deliver (some "c1") "bob" (some "boom") (.str "hello") =
      ⟨.sentChannel "c1" "hello", some "boom", none⟩ ∧
    deliver none "bob" none (.obj none (some "hey") "x") =
      ⟨.sentDirect "bob" "hey", none, none⟩ ∧
    (deliver none "bob" none (.str "z")).raised = none ∧
    ((⟨some "c1", "bob", some "s9", "hi", some "m1", some "group", some "devs",
       true, some "c1", "bob"⟩ : Normalized).replyChannelId = some "c1" ∧
     (⟨some "c1", "bob", some "s9", "hi", some "m1", some "group", some "devs",
       true, some "c1", "bob"⟩ : Normalized).replySenderName = "bob") :=
  ⟨C6_amended_theorem.1 _ _ _ _ (by decide),
   C6_amended_theorem.2.1 _ _ _ _ (by decide) (by decide),
   C6_amended_theorem.2.2.1 _ _ _ _ (by decide) (by decide),
   C6_amended_theorem.2.2.2.1 _ _ _ _,
   C6_amended_theorem.2.2.2.2 ⟨none⟩ noInfo ⟨none, legacyGoodBody⟩ _ (by decide)⟩

/-- C7 (confirmed): when a webhook secret is configured, the handler first
requires the Authorization header to carry a bearer token exactly equal to
the secret; on mismatch or absence it answers 401 with the documented body
and performs no further processing whatsoever (the trace is a constant,
independent of the request body: no lookup, no dispatch); when no secret is
configured, the handler never consults the Authorization header. -/
theorem C7_theorem :
    (∀ (bh : HubConfig) (lookup : String → Option ChannelInfo) (req : Request),
      jsTruthy bh.webhookSecret = true →
      bearerToken req.authHeader ≠ bh.webhookSecret.getD "" →
      handleInboundWebhook bh lookup req = ⟨.resp 401 unauthorizedBody, [], none⟩) ∧
    (∀ (bh : HubConfig) (lookup : String → Option ChannelInfo) (b : Body)
      (a a' : Option String), jsTruthy bh.webhookSecret = false →
      handleInboundWebhook bh lookup ⟨a, b⟩ = handleInboundWebhook bh lookup ⟨a', b⟩) := by
  constructor
  · intro bh lookup req h1 h2
    have hfail : authFail bh req = true := by
      unfold authFail
      rw [h1]
      simp only [Bool.true_and, Bool.not_eq_true', beq_eq_false_iff_ne, ne_eq]
      exact h2
    unfold handleInboundWebhook
    rw [hfail]
    simp
  · intro bh lookup b a a' h
    have f1 : authFail bh ⟨a, b⟩ = false := by
      unfold authFail
      rw [h]
      simp
    have f2 : authFail bh ⟨a', b⟩ = false := by
      unfold authFail
      rw [h]
      simp
    rw [handle_noAuthFail _ _ _ f1, handle_noAuthFail _ _ _ f2]

theorem C7_theorem_witness :
    handleInboundWebhook ⟨some "xyz"⟩ noInfo ⟨some "Bearer wrong", legacyGoodBody⟩
      = ⟨.resp 401 unauthorizedBody, [], none⟩ ∧
    handleInboundWebhook ⟨none⟩ noInfo ⟨some "Bearer whatever", legacyGoodBody⟩
      = handleInboundWebhook ⟨none⟩ noInfo ⟨none, legacyGoodBody⟩ :=
  ⟨C7_theorem.1 ⟨some "xyz"⟩ noInfo ⟨some "Bearer wrong", legacyGoodBody⟩
    (by decide) (by decide),
   C7_theorem.2 ⟨none⟩ noInfo legacyGoodBody (some "Bearer whatever") none
    (by decide)⟩

/-- C8 (confirmed): every payload whose `webhook_version` is not `"1"` and
whose top-level `content` and `sender_name` are truthy normalizes
successfully; the seven canonical fields are read one-to-one from the
top-level object and no channel-info lookup is performed. -/
theorem C8_theorem (bh : HubConfig) (lookup : String → Option ChannelInfo)
    (req : Request)
    (hauth : authFail bh req = false)
    (hv : (req.body.webhook_version == some "1") = false)
    (hc : jsTruthy req.body.content = true)
    (hs : jsTruthy req.body.sender_name = true) :
    handleInboundWebhook bh lookup req =
      ⟨.resp 200 okBody, [], some
        ⟨req.body.channel_id, req.body.sender_name.getD "", req.body.sender_id,
         req.body.content.getD "", req.body.message_id, req.body.chat_type,
         req.body.group_name, req.body.chat_type == some "group",
         (if req.body.chat_type == some "group" then req.body.channel_id else none),
         req.body.sender_name.getD ""⟩⟩ := by
  rw [handle_noAuthFail _ _ _ hauth, extractFields_legacy lookup req.body hv]
  simp only
  rw [finalize_ok _ hc hs]

theorem C8_theorem_witness :
    handleInboundWebhook ⟨none⟩ noInfo ⟨none, legacyGoodBody⟩ =
      ⟨.resp 200 okBody, [], some
        ⟨some "c1", "bob", some "s9", "hi", some "m1", some "group",
         some "devs", true, some "c1", "bob"⟩⟩ := by
  exact C8_theorem ⟨none⟩ noInfo ⟨none, legacyGoodBody⟩
    (by decide) (by decide) (by decide) (by decide)

/-- C10 (confirmed): a versioned payload with no truthy `channel_id`
triggers no channel-info lookup, leaves `chat_type` undefined, and is
routed as a direct message: `isGroup = false`, no reply channel, the reply
targeting the sender by name. -/
theorem C10_theorem (bh : HubConfig) (lookup : String → Option ChannelInfo)
    (req : Request)
    (hauth : authFail bh req = false)
    (hv : req.body.webhook_version = some "1")
    (hcid : jsTruthy req.body.channel_id = false)
    (hc : jsTruthy (req.body.message.bind (fun m => m.content)) = true)
    (hs : jsTruthy req.body.sender_name = true) :
    handleInboundWebhook bh lookup req =
      ⟨.resp 200 okBody, [], some
        ⟨req.body.channel_id, req.body.sender_name.getD "",
         req.body.message.bind (fun m => m.sender_id),
         (req.body.message.bind (fun m => m.content)).getD "",
         req.body.message.bind (fun m => m.id), none, none, false, none,
         req.body.sender_name.getD ""⟩⟩ := by
  rw [handle_noAuthFail _ _ _ hauth, extractFields_v1_noCid lookup req.body hv hcid]
  simp only
  rw [finalize_ok _ hc hs]
  simp

theorem C10_theorem_witness :
    handleInboundWebhook ⟨none⟩ noInfo ⟨none, v1NoCidBody⟩ =
      ⟨.resp 200 okBody, [], some
        ⟨none, "bob", some "s9", "hi", some "m1", none, none, false, none,
         "bob"⟩⟩ := by
  exact C10_theorem ⟨none⟩ noInfo ⟨none, v1NoCidBody⟩
    (by decide) (by decide) (by decide) (by decide) (by decide)

/-- C1 counterexample: a versioned payload whose `channel_id` fails the
safe pattern makes `fetchChannelInfo` throw (it yields no result), yet no
normalized message with `chat_type = "group"` is produced: the handler
aborts with the invalid-input exception instead. -/
theorem C1_counterexample :
    jsTruthy v1UnsafeBody.channel_id = true ∧
    noInfo "../etc" = none ∧
    handleInboundWebhook ⟨none⟩ noInfo ⟨none, v1UnsafeBody⟩ =
      ⟨.thrown (invalidChannelIdMsg "../etc"), ["../etc"], none⟩ := by
  decide

/-- C1 (corrected): for every versioned payload carrying a truthy
`channel_id` that matches the safe pattern, the handler invokes the
channel-info lookup for that id, and whenever the underlying API lookup
yields no result (`fetchChannelInfo` returns `null`, which absorbs every
network or HTTP failure), the normalized message gets
`chat_type = "group"` / `isGroup = true` and the reply is routed to the
channel; a `channel_id` failing the pattern instead makes the lookup throw
and the handler propagate the exception. -/
theorem C1_amended_theorem (bh : HubConfig) (lookup : String → Option ChannelInfo)
    (req : Request) (cid : String)
    (hauth : authFail bh req = false)
    (hv : req.body.webhook_version = some "1")
    (hcid : req.body.channel_id = some cid)
    (ht : jsTruthy (some cid) = true)
    (hvalid : validChannelId cid = true)
    (hnull : lookup cid = none)
    (hc : jsTruthy (req.body.message.bind (fun m => m.content)) = true)
    (hs : jsTruthy req.body.sender_name = true) :
    handleInboundWebhook bh lookup req =
      ⟨.resp 200 okBody, [cid], some
        ⟨some cid, req.body.sender_name.getD "",
         req.body.message.bind (fun m => m.sender_id),
         (req.body.message.bind (fun m => m.content)).getD "",
         req.body.message.bind (fun m => m.id), some "group", none, true,
         some cid, req.body.sender_name.getD ""⟩⟩ := by
  rw [handle_noAuthFail _ _ _ hauth,
    extractFields_v1_null lookup req.body cid hv hcid ht hvalid hnull]
  simp only
  rw [finalize_ok _ hc hs]
  simp

theorem C1_amended_theorem_witness :
    handleInboundWebhook ⟨none⟩ noInfo ⟨none, v1GoodBody⟩ =
      ⟨.resp 200 okBody, ["c1"], some
        ⟨some "c1", "bob", some "s9", "hi", some "m1", some "group", none,
         true, some "c1", "bob"⟩⟩ := by
  exact C1_amended_theorem ⟨none⟩ noInfo ⟨none, v1GoodBody⟩ "c1" (by decide)
    (by decide) (by decide) (by decide) (by decide) (by decide) (by decide)
    (by decide)

theorem extractFields_safe_ok (lookup : String → Option ChannelInfo) (b : Body)
    (hsafe : (b.webhook_version == some "1") = true →
      jsTruthy b.channel_id = true →
      validChannelId (b.channel_id.getD "") = true) :
    ∃ ex ls, extractFields lookup b = (.ok ex, ls) ∧
      ex.content = extractedContent b ∧ ex.sender_name = b.sender_name := by
  by_cases hv : (b.webhook_version == some "1") = true
  · have hv1 : b.webhook_version = some "1" := by simpa using hv
    by_cases ht : jsTruthy b.channel_id = true
    · have hvalid := hsafe hv ht
      rcases hcid : b.channel_id with _ | cid
      · rw [hcid] at ht
        simp [jsTruthy, strEmpty] at ht
      · rw [hcid] at ht hvalid
        simp only [Option.getD_some] at hvalid
        rcases hl : lookup cid with _ | ci
        · exact ⟨_, _, extractFields_v1_null lookup b cid hv1 hcid ht hvalid hl,
            by simp [extractedContent, hv1], rfl⟩
        · exact ⟨_, _, extractFields_v1_info lookup b cid ci hv1 hcid ht hvalid hl,
            by simp [extractedContent, hv1], rfl⟩
    · have ht0 : jsTruthy b.channel_id = false := by
        simpa using ht
      exact ⟨_, _, extractFields_v1_noCid lookup b hv1 ht0,
        by simp [extractedContent, hv1], rfl⟩
  · have hv0 : (b.webhook_version == some "1") = false := by
      simpa using hv
    exact ⟨_, _, extractFields_legacy lookup b hv0,
      by simp [extractedContent, hv0], rfl⟩

/-- C9 counterexample: a versioned payload with an unsafe `channel_id` and
no extractable content does not get the 400 response the claim demands for
every payload missing content; the handler throws during the channel-info
lookup, which runs before the validation check. -/
theorem C9_counterexample :
    extractedContent v1UnsafeNoContent = none ∧
    handleInboundWebhook ⟨none⟩ noInfo ⟨none, v1UnsafeNoContent⟩ =
      ⟨.thrown (invalidChannelIdMsg "../etc"), ["../etc"], none⟩ ∧
    (handleInboundWebhook ⟨none⟩ noInfo ⟨none, v1UnsafeNoContent⟩).result ≠
      .resp 400 missingBody := by
  decide

/-- C9 (corrected): provided the auth check passes and, for versioned
payloads, any truthy `channel_id` matches the safe pattern, a payload from
which no content or no sender name was extracted gets the 400 response
with the documented body and nothing is dispatched, while a payload that
passes validation gets 200 with body ok true and is dispatched; a
versioned payload with an unsafe `channel_id` instead makes the handler
throw before the validation check. -/
theorem C9_amended_theorem (bh : HubConfig) (lookup : String → Option ChannelInfo)
    (req : Request)
    (hauth : authFail bh req = false)
    (hsafe : (req.body.webhook_version == some "1") = true →
      jsTruthy req.body.channel_id = true →
      validChannelId (req.body.channel_id.getD "") = true) :
    ((!jsTruthy (extractedContent req.body) || !jsTruthy req.body.sender_name) = true →
      (handleInboundWebhook bh lookup req).result = .resp 400 missingBody ∧
      (handleInboundWebhook bh lookup req).dispatched = none) ∧
    (jsTruthy (extractedContent req.body) = true →
      jsTruthy req.body.sender_name = true →
      (handleInboundWebhook bh lookup req).result = .resp 200 okBody ∧
      (handleInboundWebhook bh lookup req).dispatched ≠ none) := by
  obtain ⟨ex, ls, hE, hcont, hsend⟩ := extractFields_safe_ok lookup req.body hsafe
  rw [handle_noAuthFail _ _ _ hauth, hE]
  simp only
  constructor
  · intro hm
    rw [finalize_missing ex (by rw [hcont, hsend]; exact hm)]
    exact ⟨rfl, rfl⟩
  · intro hc hs
    rw [finalize_ok ex (by rw [hcont]; exact hc) (by rw [hsend]; exact hs)]
    exact ⟨rfl, by simp⟩

theorem C9_amended_theorem_witness :
    ((handleInboundWebhook ⟨none⟩ noInfo ⟨none, legacyNoSender⟩).result
      = .resp 400 missingBody ∧
     (handleInboundWebhook ⟨none⟩ noInfo ⟨none, legacyNoSender⟩).dispatched
      = none) ∧
    ((handleInboundWebhook ⟨none⟩ noInfo ⟨none, legacyGoodBody⟩).result
      = .resp 200 okBody ∧
     (handleInboundWebhook ⟨none⟩ noInfo ⟨none, legacyGoodBody⟩).dispatched
      ≠ none) :=
  ⟨(C9_amended_theorem ⟨none⟩ noInfo ⟨none, legacyNoSender⟩ (by decide)
      (by decide)).1 (by decide),
   (C9_amended_theorem ⟨none⟩ noInfo ⟨none, legacyGoodBody⟩ (by decide)
      (by decide)).2 (by decide) (by decide)⟩

/-- C2 counterexample: the claim covers every outbound hub HTTP call, but
the HTTP fallback `hubFetch` of the SDK variant performs no retry at all:
a 429 response with `Retry-After: 5` raises the delivery error on the
first attempt, with no delay. -/
theorem C2_counterexample :
    rs429 0 = ⟨false, 429, some "5", some "slow down"⟩ ∧
    hubFetchNR rs429 = ⟨.failure 429 "slow down", [], 1⟩ := by
  decide

/-- C2 (corrected): in the webhook-only variants, `hubFetch` retries a 429
up to 2 retries (3 attempts), sleeping `Retry-After` seconds (5000 ms for
`Retry-After: 5`) when that header parses to a positive integer and
`1000 ms × (attempt + 1)` otherwise, and raises an error carrying the
status and response body text on any non-429 non-2xx response or on
exhaustion; the HTTP fallback `hubFetch` of the SDK variant never retries
and raises at once on any non-2xx response, including the first 429. -/
theorem hubFetch_unfold (rs : Nat → HttpResp) :
    hubFetch rs =
      (if (rs 0).ok then ⟨.success 0, [], 1⟩
       else if (rs 0).status = 429 ∧ 0 < 2 then
         ⟨(hubFetchAux rs 2 1).outcome,
          retryDelayMs 0 (rs 0).retryAfter :: (hubFetchAux rs 2 1).delays,
          (hubFetchAux rs 2 1).attempts + 1⟩
       else ⟨.failure (rs 0).status ((rs 0).bodyText.getD ""), [], 1⟩) := rfl

theorem hubFetchAux_two_one (rs : Nat → HttpResp) :
    hubFetchAux rs 2 1 =
      (if (rs 1).ok then ⟨.success 1, [], 1⟩
       else if (rs 1).status = 429 ∧ 1 < 2 then
         ⟨(hubFetchAux rs 1 2).outcome,
          retryDelayMs 1 (rs 1).retryAfter :: (hubFetchAux rs 1 2).delays,
          (hubFetchAux rs 1 2).attempts + 1⟩
       else ⟨.failure (rs 1).status ((rs 1).bodyText.getD ""), [], 1⟩) := rfl

theorem hubFetchAux_one_two (rs : Nat → HttpResp) :
    hubFetchAux rs 1 2 =
      (if (rs 2).ok then ⟨.success 2, [], 1⟩
       else if (rs 2).status = 429 ∧ 2 < 2 then
         ⟨(hubFetchAux rs 0 3).outcome,
          retryDelayMs 2 (rs 2).retryAfter :: (hubFetchAux rs 0 3).delays,
          (hubFetchAux rs 0 3).attempts + 1⟩
       else ⟨.failure (rs 2).status ((rs 2).bodyText.getD ""), [], 1⟩) := rfl

theorem C2_amended_theorem :
    (∀ rs : Nat → HttpResp, (rs 0).ok = false → (rs 0).status = 429 →
      (rs 0).retryAfter = some "5" →
      (hubFetch rs).delays.head? = some 5000) ∧
    (∀ rs : Nat → HttpResp,
      (∀ k, k < 3 → (rs k).ok = false ∧ (rs k).status = 429) →
      hubFetch rs = ⟨.failure 429 ((rs 2).bodyText.getD ""),
        [retryDelayMs 0 (rs 0).retryAfter, retryDelayMs 1 (rs 1).retryAfter], 3⟩) ∧
    (∀ rs : Nat → HttpResp, (rs 0).ok = false → (rs 0).status ≠ 429 →
      hubFetch rs = ⟨.failure (rs 0).status ((rs 0).bodyText.getD ""), [], 1⟩) ∧
    (∀ attempt : Nat, retryDelayMs attempt (some "5") = 5000 ∧
      retryDelayMs attempt none = 1000 * (attempt + 1)) ∧
    (∀ rs : Nat → HttpResp, (rs 0).ok = false →
      hubFetchNR rs = ⟨.failure (rs 0).status ((rs 0).bodyText.getD ""), [], 1⟩) := by
  refine ⟨?_, ?_, ?_, ?_, ?_⟩
  · intro rs h1 h2 h3
    rw [hubFetch_unfold, h1, h2, h3,
      if_neg (show ¬(false = true) from by decide),
      if_pos (show (429:Nat) = 429 ∧ 0 < 2 from ⟨rfl, by decide⟩),
      show retryDelayMs 0 (some "5") = 5000 from by decide]
    rfl
  · intro rs h
    obtain ⟨o0, s0⟩ := h 0 (by norm_num)
    obtain ⟨o1, s1⟩ := h 1 (by norm_num)
    obtain ⟨o2, s2⟩ := h 2 (by norm_num)
    rw [hubFetch_unfold, hubFetchAux_two_one, hubFetchAux_one_two,
      o0, s0, o1, s1, o2, s2,
      if_neg (show ¬(false = true) from by decide),
      if_pos (show (429:Nat) = 429 ∧ 0 < 2 from ⟨rfl, by decide⟩),
      if_neg (show ¬(false = true) from by decide),
      if_pos (show (429:Nat) = 429 ∧ 1 < 2 from ⟨rfl, by decide⟩),
      if_neg (show ¬(false = true) from by decide),
      if_neg (show ¬((429:Nat) = 429 ∧ 2 < 2) from fun hc => absurd hc.2 (by decide))]
  · intro rs h1 h2
    rw [hubFetch_unfold, h1,
      if_neg (show ¬(false = true) from by decide),
      if_neg (fun hc => h2 hc.1)]
  · intro attempt
    constructor
    · unfold retryDelayMs
      rw [show jsParseInt10 ((some "5").getD "") = some 5 from by decide]
      dsimp only
      rw [if_pos (show (5:Int) > 0 from by decide)]
      rfl
    · unfold retryDelayMs
      rw [show jsParseInt10 ((none : Option String).getD "") = none from by decide]
      rfl
  · intro rs h
    unfold hubFetchNR
    simp only [h, Bool.false_eq_true, if_false]

theorem C2_amended_theorem_witness :
    (hubFetch rs429).delays.head? = some 5000 ∧
    hubFetch rs429 = ⟨.failure 429 ((rs429 2).bodyText.getD ""),
      [retryDelayMs 0 (rs429 0).retryAfter, retryDelayMs 1 (rs429 1).retryAfter], 3⟩ ∧
    hubFetch rs500 = ⟨.failure 500 ((rs500 0).bodyText.getD ""), [], 1⟩ ∧
    (retryDelayMs 0 (some "5") = 5000 ∧ retryDelayMs 0 none = 1000 * (0 + 1)) ∧
    hubFetchNR rs500 = ⟨.failure 500 ((rs500 0).bodyText.getD ""), [], 1⟩ :=
  ⟨C2_amended_theorem.1 rs429 rfl rfl rfl,
   C2_amended_theorem.2.1 rs429 (fun _ _ => ⟨rfl, rfl⟩),
   C2_amended_theorem.2.2.1 rs500 rfl (by decide),
   C2_amended_theorem.2.2.2.1 0,
   C2_amended_theorem.2.2.2.2 rs500 rfl⟩

end Botshub
